/- Verification development for runtime_dependency_manager/manager.py.
   The Python source is shallowly embedded: pure helpers become Lean functions,
   the manager's stateful lifecycle becomes explicit state passing over a
   Manager structure, and the runtime boundaries (module resolution, the pip
   subprocess, installed-version metadata) are an explicit environment record. -/
import Mathlib

namespace RDM

/-- Single-quote character, used when rendering shell-quoted command lines. -/
def sq : String := String.singleton (Char.ofNat 39)

/-- Numeric value of a list of decimal digit characters. -/
def natOfDigits (l : List Char) : Nat :=
  l.foldl (fun acc c => acc * 10 + (c.toNat - 48)) 0

/-- Pad a release tuple with trailing zero components up to length n
(release comparison in PEP 440 pads the shorter tuple with zeros). -/
def padTo (n : Nat) (xs : List Nat) : List Nat :=
  xs ++ List.replicate (n - xs.length) 0

/-- Lexicographic comparison of two equal-length numeric lists. -/
def cmpNatList : List Nat → List Nat → Ordering
  | [], [] => Ordering.eq
  | [], _ :: _ => Ordering.lt
  | _ :: _, [] => Ordering.gt
  | a :: as, b :: bs =>
    match compare a b with
    | Ordering.eq => cmpNatList as bs
    | o => o

/-- PEP 440 release comparison: pad with zeros, then compare componentwise. -/
def cmpVer (a b : List Nat) : Ordering :=
  let n := max a.length b.length
  cmpNatList (padTo n a) (padTo n b)

/-- Does the second list start with the first one? -/
def listStarts : List Char → List Char → Bool
  | [], _ => true
  | _ :: _, [] => false
  | a :: as, b :: bs => a = b && listStarts as bs

/-- Does the second list contain the first as a contiguous run? -/
def listHasInfix (needle : List Char) : List Char → Bool
  | [] => needle.isEmpty
  | c :: rest => listStarts needle (c :: rest) || listHasInfix needle rest

/-- Substring test, modelling the Python `in` operator on str. -/
def strContainsSub (hay needle : String) : Bool :=
  listHasInfix needle.data hay.data

/-- Split a character list at every occurrence of the separator character
(structural version of str.split with a one-character separator). -/
def splitOnChar (c : Char) : List Char → List (List Char)
  | [] => [[]]
  | x :: xs =>
    let r := splitOnChar c xs
    if x = c then [] :: r
    else
      match r with
      | [] => [[x]]
      | h :: t => (x :: h) :: t

/-- Strip leading and trailing whitespace (structural version of str.strip). -/
def trimChars (l : List Char) : List Char :=
  ((l.dropWhile Char.isWhitespace).reverse.dropWhile Char.isWhitespace).reverse

/-- Replace every occurrence of one character by a replacement string
(structural version of str.replace with a one-character needle). -/
def replaceChar (l : List Char) (c : Char) (r : List Char) : List Char :=
  l.foldr (fun x acc => if x = c then r ++ acc else x :: acc) []

/-- Join strings with a separator (structural version of str.join). -/
def joinStrings (sep : String) : List String → String
  | [] => ""
  | [x] => x
  | x :: y :: t => x ++ sep ++ joinStrings sep (y :: t)

/-- Code-point comparison of character lists, as Python compares str. -/
def charListLe : List Char → List Char → Bool
  | [], _ => true
  | _ :: _, [] => false
  | a :: as, b :: bs => if a = b then charListLe as bs else decide (a < b)

/-- Characters shlex.quote leaves unquoted (the complement of its unsafe set). -/
def shlexSafeChar (c : Char) : Bool :=
  c.isAlphanum || c ∈ ['@', '%', '+', '=', ':', ',', '.', '/', '-', '_']

/-- Model of shlex.quote: return the argument unchanged when every character is
safe, otherwise wrap in single quotes, escaping embedded single quotes. -/
def shlexQuote (s : String) : String :=
  if s.data = [] then sq ++ sq
  else if s.data.all shlexSafeChar then s
  else sq ++ String.mk (replaceChar s.data (Char.ofNat 39)
    (sq ++ "\"" ++ sq ++ "\"" ++ sq).data) ++ sq

/-- Insert a string into an already sorted list, keeping ascending order. -/
def insertSorted (x : String) : List String → List String
  | [] => [x]
  | y :: ys =>
    if charListLe x.data y.data then x :: y :: ys else y :: insertSorted x ys

/-- Ascending sort of strings, modelling Python sorted() on str. -/
def sortStrings : List String → List String
  | [] => []
  | x :: xs => insertSorted x (sortStrings xs)

/-- Python dict assignment on an association list: overwrite the entry in place
when the key exists, otherwise append a new entry at the end. -/
def assocSet {β : Type} (g : List (String × β)) (k : String) (v : β) :
    List (String × β) :=
  if g.any (fun p => p.1 == k) then
    g.map (fun p => if p.1 == k then (k, v) else p)
  else g ++ [(k, v)]

/-- Lookup in an association list (Python dict read / getattr). -/
def assocGet {β : Type} (g : List (String × β)) (k : String) : Option β :=
  match g with
  | [] => none
  | p :: rest => if p.1 == k then some p.2 else assocGet rest k

/- ===== Model of the external packaging library (Version / SpecifierSet),
   restricted to release-only versions (dot-separated numerals), which is the
   fragment manager.py exercises. ===== -/

/-- PEP 440 comparison operators accepted by the specifier model. -/
inductive SpecOp
  | eq | ne | le | ge | lt | gt | compatible
deriving DecidableEq, Repr

/-- One version clause: an operator, the version text as written (whitespace
stripped), and its parsed release tuple. -/
structure Specifier where
  op : SpecOp
  verText : String
  release : List Nat
deriving DecidableEq, Repr

/-- Text of a specifier operator. -/
def opText : SpecOp → String
  | SpecOp.eq => "=="
  | SpecOp.ne => "!="
  | SpecOp.le => "<="
  | SpecOp.ge => ">="
  | SpecOp.lt => "<"
  | SpecOp.gt => ">"
  | SpecOp.compatible => "~="

/-- Split off a leading comparison operator from a clause. -/
def splitSpecOp (s : List Char) : Option (SpecOp × List Char) :=
  if listStarts ">=".data s then some (SpecOp.ge, s.drop 2)
  else if listStarts "<=".data s then some (SpecOp.le, s.drop 2)
  else if listStarts "==".data s then some (SpecOp.eq, s.drop 2)
  else if listStarts "!=".data s then some (SpecOp.ne, s.drop 2)
  else if listStarts "~=".data s then some (SpecOp.compatible, s.drop 2)
  else if listStarts ">".data s then some (SpecOp.gt, s.drop 1)
  else if listStarts "<".data s then some (SpecOp.lt, s.drop 1)
  else none

/-- Parse a version string into its release tuple; none models InvalidVersion. -/
def parseVersion (s : String) : Option (List Nat) :=
  let parts := splitOnChar (Char.ofNat 46) (trimChars s.data)
  if parts.all (fun p => !p.isEmpty && p.all Char.isDigit) then
    some (parts.map natOfDigits)
  else none

/-- Parse one specifier clause; a compatible-release clause needs at least two
release components, as in packaging. -/
def parseSpecifier (s : String) : Option Specifier :=
  match splitSpecOp (trimChars s.data) with
  | none => none
  | some (op, rest) =>
    let vt := String.mk (trimChars rest)
    match parseVersion vt with
    | none => none
    | some rel =>
      if op = SpecOp.compatible ∧ rel.length < 2 then none
      else some { op := op, verText := vt, release := rel }

/-- Parse a comma-separated specifier set; the empty string is the empty set. -/
def parseSpecifierSet (s : String) : Option (List Specifier) :=
  if trimChars s.data = [] then some []
  else ((splitOnChar (Char.ofNat 44) s.data).map String.mk).mapM parseSpecifier

/-- Render of one clause: operator directly followed by the version text. -/
def renderSpecifier (s : Specifier) : String :=
  opText s.op ++ s.verText

/-- Render of a specifier set: clauses rendered, sorted, comma-joined, matching
str() of a packaging SpecifierSet. -/
def renderSpecifierSet (l : List Specifier) : String :=
  joinStrings "," (sortStrings (l.map renderSpecifier))

/-- Does the release tuple v satisfy one clause? -/
def specContains (v : List Nat) (s : Specifier) : Bool :=
  let o := cmpVer v s.release
  match s.op with
  | SpecOp.eq => o == Ordering.eq
  | SpecOp.ne => !(o == Ordering.eq)
  | SpecOp.ge => !(o == Ordering.lt)
  | SpecOp.le => !(o == Ordering.gt)
  | SpecOp.gt => o == Ordering.gt
  | SpecOp.lt => o == Ordering.lt
  | SpecOp.compatible =>
    let pre := s.release.dropLast
    !(o == Ordering.lt) && ((padTo pre.length v).take pre.length == pre)

/-- RuntimeDependencyManager._is_version_satisfying: an empty specifier string
satisfies, an unparsable installed version resolves to false (InvalidVersion is
caught and logged), and otherwise every clause of the set must hold. A
specifier string that does not parse also yields false; for the normalized
specifiers produced at package declaration this branch is unreachable. -/
def _is_version_satisfying (installed_version : String) (version_spec : String) :
    Bool :=
  if version_spec = "" then true
  else
    match parseVersion installed_version with
    | none => false
    | some v =>
      match parseSpecifierSet version_spec with
      | none => false
      | some specs => specs.all (specContains v)

/-- The normalization performed in Package.__init__: an absent or empty
constraint falls back to the literal string of a greater-than-zero clause, and
the result is re-rendered through the specifier model; none models the
exception packaging raises on an unparsable requirement. -/
def normalizeSpecString (version_spec : Option String) : Option String :=
  let raw := match version_spec with
    | none => ">0"
    | some s => if s = "" then ">0" else s
  (parseSpecifierSet raw).map renderSpecifierSet

/- ===== Data model ===== -/

/-- The two shapes of an import statement dict in manager.py. -/
inductive ImpKind
  | direct
  | fromImport
deriving DecidableEq, Repr

/-- One entry of Package.imports: the dict with keys type, module, optionally
from, and optionally alias (aliasName here, since alias is reserved in
Lean). fromName is populated exactly for from-imports. -/
structure Imp where
  kind : ImpKind
  fromName : Option String
  module : String
  aliasName : Option String
deriving DecidableEq, Repr

/-- Package: name, normalized version specifier string, optionality flag and
the ordered list of declared import statements. -/
structure Package where
  name : String
  version_spec : String
  optional : Bool
  imports : List Imp
deriving DecidableEq, Repr

/-- Package.__init__: normalizes the declared constraint (an absent or empty
constraint becomes the greater-than-zero clause); none models the exception
propagating out of the constructor on an unparsable constraint. -/
def mkPackage (name : String) (version_spec : Option String) (optional : Bool) :
    Option Package :=
  (normalizeSpecString version_spec).map
    (fun vs => { name := name, version_spec := vs, optional := optional,
                 imports := [] })

/-- The typed exceptions manager.py raises from the install pipeline. -/
inductive RdmError
  | dependentPackageNotFound (package_name : String)
  | versionCompatibility (package_name installed_version version_spec : String)
  | packageInstallation (message : String)
deriving DecidableEq, Repr

/-- The non-debug log lines manager.py emits, kept structured; debug-level
logging is not modelled. -/
inductive LogMsg
  | missingRequired (name spec : String)
  | optionalMissing (names : List String)
  | errorImportDirect (module emsg pkgName : String)
  | errorImportFrom (module fromName emsg : String)
  | errorAttr (module fromName emsg : String)
  | installingInfo (name : String)
  | installErrorStderr (name stderr : String)
  | failedCommand (cmd : String)
  | commandOutput (stdout : String)
  | versionErrorLog (name installed spec : String)
deriving DecidableEq, Repr

/-- Rendered text of each log line, following the format strings in
manager.py (for the error lines, emsg stands for str of the exception). -/
def LogMsg.render : LogMsg → String
  | LogMsg.missingRequired n s => "Missing required runtime module: " ++ n ++ s
  | LogMsg.optionalMissing names =>
    "Optional module not found: " ++ joinStrings ", " names
  | LogMsg.errorImportDirect m e p =>
    "Error importing " ++ m ++ ": " ++ e ++ "; are you missing from_module(" ++
      sq ++ p ++ sq ++ ") ?"
  | LogMsg.errorImportFrom m f e =>
    "Error importing " ++ m ++ " from " ++ f ++ ": " ++ e
  | LogMsg.errorAttr m f e =>
    "Error importing " ++ m ++ " from " ++ f ++ ": " ++ e
  | LogMsg.installingInfo n => "Installing runtime dependency: " ++ n ++ " ..."
  | LogMsg.installErrorStderr n err =>
    "Error installing package: " ++ n ++ ": " ++ err
  | LogMsg.failedCommand c => "Failed command: " ++ c
  | LogMsg.commandOutput o => "Command output: " ++ o
  | LogMsg.versionErrorLog n iv spec =>
    "Installed version " ++ iv ++ " of " ++ n ++ " does not satisfy " ++ spec

/-- Is a log line the fail-fast warning for one missing requirement? -/
def LogMsg.isMissingReq : LogMsg → Bool
  | LogMsg.missingRequired _ _ => true
  | _ => false

/-- Is a log line the per-package installer invocation notice? -/
def LogMsg.isInstalling : LogMsg → Bool
  | LogMsg.installingInfo _ => true
  | _ => false

/-- Result of the pip subprocess (subprocess.run with captured text output). -/
structure PipResult where
  returncode : Int
  stdout : String
  stderr : String
deriving DecidableEq, Repr

/-- The runtime boundaries manager.py calls out to. import_module and getattr
return either a resolved value or the exception text (ImportError resp.
AttributeError); pip_run is the installer subprocess; metadata_version reads
the installed version, none modelling PackageNotFoundError; executable is
sys.executable. -/
structure Env (α : Type) where
  import_module : String → Except String α
  getattr : α → String → Except String α
  pip_run : List String → PipResult
  metadata_version : String → Option String
  executable : String

/-- RuntimeDependencyManager state: declared packages in declaration order,
the policy flag, installer configuration, the caller's global namespace, and
the instance attribute slots used by the missing_packages cache (keyed by
attribute name, as stored in the instance dict). -/
structure Manager (α : Type) where
  packages : List Package
  install_if_missing : Bool
  index_url : Option String
  extra_index_urls : List String
  trusted_hosts : List String
  caller_globals : List (String × α)
  instance_attrs : List (String × List Package)
deriving DecidableEq, Repr

/-- A freshly constructed manager with default installer configuration. -/
def mkManager {α : Type} (pkgs : List Package) (flag : Bool)
    (g : List (String × α)) : Manager α :=
  { packages := pkgs, install_if_missing := flag, index_url := none,
    extra_index_urls := [], trusted_hosts := [], caller_globals := g,
    instance_attrs := [] }

/- ===== Availability probe ===== -/

/-- RuntimeDependencyManager._try_import: builds the import statement and
executes it in a fresh, discarded namespace; only resolvability is observed,
so the model returns the bare outcome. The alias only changes the statement
text, never its resolvability. A from-import statement resolves when the
source module resolves and the name is either an attribute of it or
a loadable submodule of it, as the executed statement behaves. -/
def _try_import {α : Type} (env : Env α) (imp : Imp) : Bool :=
  match imp.kind with
  | ImpKind.direct =>
    match env.import_module imp.module with
    | Except.ok _ => true
    | Except.error _ => false
  | ImpKind.fromImport =>
    match env.import_module (imp.fromName.getD "") with
    | Except.error _ => false
    | Except.ok v =>
      match env.getattr v imp.module with
      | Except.ok _ => true
      | Except.error _ =>
        match env.import_module (imp.fromName.getD "" ++ "." ++ imp.module) with
        | Except.ok _ => true
        | Except.error _ => false

/-- RuntimeDependencyManager._are_imports_available: every declared import
statement must resolve; a package without declared imports probes its bare
name as a direct import. -/
def _are_imports_available {α : Type} (env : Env α) (pkg : Package) : Bool :=
  if pkg.imports.isEmpty then
    _try_import env
      { kind := ImpKind.direct, fromName := none, module := pkg.name,
        aliasName := none }
  else
    pkg.imports.all (_try_import env)

/-- RuntimeDependencyManager._get_missing_packages: split the unavailable
packages by optionality, warn once (batched) about the unavailable optional
ones, and return only the required ones. -/
def _get_missing_packages {α : Type} (env : Env α) (packages : List Package) :
    List Package × List LogMsg :=
  let missing := packages.filter
    (fun p => !_are_imports_available env p && !p.optional)
  let optionalMissing := packages.filter
    (fun p => !_are_imports_available env p && p.optional)
  (missing,
   if optionalMissing.isEmpty then []
   else [LogMsg.optionalMissing (optionalMissing.map Package.name)])

/-- The attribute name the missing_packages property assignment actually
stores under: inside the class body the double-underscore identifier is
name-mangled with the class name. -/
def mangledCacheKey : String := "_RuntimeDependencyManager__missing_packages"

/-- The attribute name the guard getattr call looks up: the string literal
passed to getattr is not name-mangled. -/
def plainCacheKey : String := "__missing_packages"

/-- The missing_packages property: when getattr on the unmangled attribute
name yields nothing (which is always, since the assignment stores under the
mangled name), recompute the missing set and store it under the mangled name;
then return the mangled attribute. Returns the value read, the updated
manager, and the log of the probe. -/
def missing_packages {α : Type} (env : Env α) (m : Manager α) :
    List Package × Manager α × List LogMsg :=
  match assocGet m.instance_attrs plainCacheKey with
  | some _ =>
    ((assocGet m.instance_attrs mangledCacheKey).getD [], m, [])
  | none =>
    let r := _get_missing_packages env m.packages
    let m' := { m with
      instance_attrs := assocSet m.instance_attrs mangledCacheKey r.1 }
    ((assocGet m'.instance_attrs mangledCacheKey).getD r.1, m', r.2)

/- ===== Symbol binder ===== -/

/-- RuntimeDependencyManager._import_module: bind one import statement into
the caller's globals. The key is the alias when present, otherwise the module
name; a direct import resolves the module named by that same key. Resolution
failures are caught, logged, and leave the globals unchanged. -/
def _import_module {α : Type} (env : Env α) (pkg : Package) (imp : Imp)
    (g : List (String × α)) : List (String × α) × List LogMsg :=
  let global_id := imp.aliasName.getD imp.module
  match imp.kind with
  | ImpKind.direct =>
    match env.import_module global_id with
    | Except.ok v => (assocSet g global_id v, [])
    | Except.error e =>
      (g, [LogMsg.errorImportDirect imp.module e pkg.name])
  | ImpKind.fromImport =>
    match env.import_module (imp.fromName.getD "") with
    | Except.error e =>
      (g, [LogMsg.errorImportFrom imp.module (imp.fromName.getD "") e])
    | Except.ok v =>
      match env.getattr v imp.module with
      | Except.ok x => (assocSet g global_id x, [])
      | Except.error e =>
        (g, [LogMsg.errorAttr imp.module (imp.fromName.getD "") e])

/-- The inner loop of _import_all_modules over one package's import list. -/
def bindImports {α : Type} (env : Env α) (pkg : Package) :
    List (String × α) → List Imp → List (String × α) × List LogMsg
  | g, [] => (g, [])
  | g, imp :: rest =>
    let r1 := _import_module env pkg imp g
    let r2 := bindImports env pkg r1.1 rest
    (r2.1, r1.2 ++ r2.2)

/-- RuntimeDependencyManager._import_all_modules: bind every declared
package's import statements, in declaration order. -/
def _import_all_modules {α : Type} (env : Env α) :
    List (String × α) → List Package → List (String × α) × List LogMsg
  | g, [] => (g, [])
  | g, p :: ps =>
    let r1 := bindImports env p g p.imports
    let r2 := _import_all_modules env r1.1 ps
    (r2.1, r1.2 ++ r2.2)

/-- Does binding this import statement fail to resolve (tracing the same
lookups _import_module performs)? -/
def bindResolutionFails {α : Type} (env : Env α) (imp : Imp) : Bool :=
  match imp.kind with
  | ImpKind.direct =>
    match env.import_module (imp.aliasName.getD imp.module) with
    | Except.ok _ => false
    | Except.error _ => true
  | ImpKind.fromImport =>
    match env.import_module (imp.fromName.getD "") with
    | Except.error _ => true
    | Except.ok v =>
      match env.getattr v imp.module with
      | Except.ok _ => false
      | Except.error _ => true

/- ===== Installer ===== -/

/-- The base pip command: interpreter, -m pip install, then the configured
index, extra indexes and trusted hosts. -/
def cmdBase {α : Type} (env : Env α) (m : Manager α) : List String :=
  [env.executable, "-m", "pip", "install"]
    ++ (match m.index_url with
        | some u => ["--index-url", u]
        | none => [])
    ++ m.extra_index_urls.foldr (fun u acc => ["--extra-index-url", u] ++ acc) []
    ++ m.trusted_hosts.foldr (fun h acc => ["--trusted-host", h] ++ acc) []

/-- The requirement argument appended for one package: name plus its
normalized constraint when one is present. -/
def installCmd (base : List String) (pkg : Package) : List String :=
  base ++ [if pkg.version_spec ≠ "" then pkg.name ++ pkg.version_spec
           else pkg.name]

/-- The shell-quoted command line as logged on failure. -/
def renderCmd (cmd : List String) : String :=
  joinStrings " " (cmd.map shlexQuote)

/-- RuntimeDependencyManager._check_version_compatibility: read the installed
version (its absence raises the package-not-found error) and raise the
version-compatibility error, after logging it, when the declared constraint is
not satisfied. -/
def _check_version_compatibility {α : Type} (env : Env α) (pkg : Package) :
    Except RdmError Unit × List LogMsg :=
  match env.metadata_version pkg.name with
  | none => (Except.error (RdmError.dependentPackageNotFound pkg.name), [])
  | some iv =>
    if _is_version_satisfying iv pkg.version_spec then (Except.ok (), [])
    else
      (Except.error (RdmError.versionCompatibility pkg.name iv pkg.version_spec),
       [LogMsg.versionErrorLog pkg.name iv pkg.version_spec])

/-- The loop body of _install_missing_packages for one package: announce the
install, run pip, classify a non-zero exit (the no-matching-distribution
diagnostic raises package-not-found, anything else logs the command, stderr
and stdout and raises the installation error), and on success run the version
check when a constraint was declared. -/
def _install_one {α : Type} (env : Env α) (base : List String) (pkg : Package) :
    Except RdmError Unit × List LogMsg :=
  let cmd := installCmd base pkg
  let intro := [LogMsg.installingInfo pkg.name]
  let r := env.pip_run cmd
  if r.returncode ≠ 0 then
    if strContainsSub r.stderr "No matching distribution" then
      (Except.error (RdmError.dependentPackageNotFound pkg.name), intro)
    else
      (Except.error
        (RdmError.packageInstallation ("Error installing package " ++ pkg.name)),
       intro ++ [LogMsg.installErrorStderr pkg.name r.stderr,
                 LogMsg.failedCommand (renderCmd cmd),
                 LogMsg.commandOutput r.stdout])
  else if pkg.version_spec ≠ "" then
    let c := _check_version_compatibility env pkg
    (c.1, intro ++ c.2)
  else (Except.ok (), intro)

/-- RuntimeDependencyManager._install_missing_packages: install each package
in order; the first raised error aborts the loop. -/
def _install_missing_packages {α : Type} (env : Env α) (base : List String) :
    List Package → Except RdmError Unit × List LogMsg
  | [] => (Except.ok (), [])
  | p :: ps =>
    let r := _install_one env base p
    match r.1 with
    | Except.error e => (Except.error e, r.2)
    | Except.ok _ =>
      let rest := _install_missing_packages env base ps
      (rest.1, r.2 ++ rest.2)

/- ===== Manager orchestration ===== -/

/-- RuntimeDependencyManager.install: read the missing set (the property read
inside the if and the one passed to the installer are two separate property
reads), install it when non-empty, and on success bind every declared
package's imports. Returns the final manager, the raised error when one
aborted the pipeline, and the log. -/
def installRun {α : Type} (env : Env α) (m : Manager α) :
    Manager α × Option RdmError × List LogMsg :=
  let r1 := missing_packages env m
  let m1 := r1.2.1
  if r1.1.isEmpty then
    let b := _import_all_modules env m1.caller_globals m1.packages
    ({ m1 with caller_globals := b.1 }, none, r1.2.2 ++ b.2)
  else
    let r2 := missing_packages env m1
    let m2 := r2.2.1
    let inst := _install_missing_packages env (cmdBase env m2) r2.1
    match inst.1 with
    | Except.error e =>
      (m2, some e, r1.2.2 ++ r2.2.2 ++ inst.2)
    | Except.ok _ =>
      let b := _import_all_modules env m2.caller_globals m2.packages
      ({ m2 with caller_globals := b.1 }, none,
       r1.2.2 ++ r2.2.2 ++ inst.2 ++ b.2)

/-- How the session ends: normally, by process exit, or by a raised error. -/
inductive ExitStatus
  | normal
  | exited (code : Nat)
  | raised (e : RdmError)
deriving DecidableEq, Repr

/-- RuntimeDependencyManager.__exit__: auto-install when configured to;
otherwise, when the missing set is non-empty (checked by one property read and
iterated by a second one), warn per missing requirement and exit the process
with status 1; otherwise do nothing. -/
def exitRun {α : Type} (env : Env α) (m : Manager α) :
    Manager α × ExitStatus × List LogMsg :=
  if m.install_if_missing then
    let r := installRun env m
    match r.2.1 with
    | none => (r.1, ExitStatus.normal, r.2.2)
    | some e => (r.1, ExitStatus.raised e, r.2.2)
  else
    let r1 := missing_packages env m
    if r1.1.isEmpty then
      (r1.2.1, ExitStatus.normal, r1.2.2)
    else
      let r2 := missing_packages env r1.2.1
      (r2.2.1, ExitStatus.exited 1,
       r1.2.2 ++ r2.2.2 ++
         r2.1.map (fun p => LogMsg.missingRequired p.name p.version_spec))

/- ===== Concrete environments and packages used to instantiate theorems ===== -/

/-- A small module universe over string values: two importable modules, all
other names unresolvable. -/
def wImport : String → Except String String := fun m =>
  if m = "okmod" then Except.ok "V_okmod"
  else if m = "pymongo" then Except.ok "V_pymongo"
  else Except.error ("No module named " ++ m)

/-- Attribute resolution over string values: one attribute on one module. -/
def wGetattr : String → String → Except String String := fun v a =>
  if v = "V_pymongo" && a = "ObjectId" then Except.ok "V_ObjectId"
  else Except.error ("module " ++ v ++ " has no attribute " ++ a)

/-- Baseline environment: pip succeeds, only goodpkg has installed metadata. -/
def wEnv : Env String :=
  { import_module := wImport, getattr := wGetattr,
    pip_run := fun _ => { returncode := 0, stdout := "", stderr := "" },
    metadata_version := fun n => if n = "goodpkg" then some "1.0" else none,
    executable := "python3" }

/-- Variant where both the module pymongo and a module literally named pm
resolve, to observe which name a direct aliased import binds. -/
def wImportBoth : String → Except String String := fun m =>
  if m = "pymongo" then Except.ok "V_pymongo"
  else if m = "pm" then Except.ok "V_pm"
  else Except.error ("No module named " ++ m)

/-- Environment with both pymongo and pm importable. -/
def wEnvBoth : Env String := { wEnv with import_module := wImportBoth }

/-- Environment where the previously missing module missmod has appeared. -/
def wEnvLater : Env String :=
  { wEnv with import_module := fun m =>
      if m = "missmod" then Except.ok "V_missmod" else wImport m }

/-- Environment whose pip run fails with the no-matching-distribution text. -/
def wEnvPipNoMatch : Env String :=
  { wEnv with pip_run := fun _ =>
      { returncode := 1, stdout := "",
        stderr := "ERROR: No matching distribution found for misspkg" } }

/-- Environment whose pip run fails for an unrelated reason. -/
def wEnvPipFail : Env String :=
  { wEnv with pip_run := fun _ =>
      { returncode := 1, stdout := "outX", stderr := "boom" } }

/-- Environment where every package reports installed version 1.0.0. -/
def wEnvVer : Env String :=
  { wEnv with metadata_version := fun _ => some "1.0.0" }

/-- A required package whose single direct import resolves. -/
def pkgOk : Package :=
  { name := "okpkg", version_spec := ">0", optional := false,
    imports := [{ kind := ImpKind.direct, fromName := none, module := "okmod",
                  aliasName := none }] }

/-- A required package whose single direct import does not resolve. -/
def pkgMissReq : Package :=
  { name := "misspkg", version_spec := ">=1.0", optional := false,
    imports := [{ kind := ImpKind.direct, fromName := none,
                  module := "missmod", aliasName := none }] }

/-- As pkgMissReq but with a constraint that installed version 1.0.0 fails. -/
def pkgMissReq2 : Package :=
  { name := "misspkg", version_spec := ">=2.0", optional := false,
    imports := [{ kind := ImpKind.direct, fromName := none,
                  module := "missmod", aliasName := none }] }

/-- An optional package whose single direct import does not resolve. -/
def pkgMissOpt : Package :=
  { name := "optpkg", version_spec := ">0", optional := true,
    imports := [{ kind := ImpKind.direct, fromName := none, module := "optmod",
                  aliasName := none }] }

/-- A direct import of pymongo under the alias pm. -/
def impAliased : Imp :=
  { kind := ImpKind.direct, fromName := none, module := "pymongo",
    aliasName := some "pm" }

/-- A direct import of okmod. -/
def impOk : Imp :=
  { kind := ImpKind.direct, fromName := none, module := "okmod",
    aliasName := none }

/-- A from-import of an attribute pymongo does not have. -/
def impBadAttr : Imp :=
  { kind := ImpKind.fromImport, fromName := some "pymongo",
    module := "NoSuchAttr", aliasName := none }

/-- A from-import of the ObjectId attribute of pymongo. -/
def impObjId : Imp :=
  { kind := ImpKind.fromImport, fromName := some "pymongo",
    module := "ObjectId", aliasName := none }

/- ===== Helper lemmas ===== -/

/-- Overwriting an existing key makes it read back the new value. -/
theorem assocGet_overwrite_mem {β : Type} (k : String) (v : β) :
    ∀ g : List (String × β), g.any (fun q => q.1 == k) = true →
      assocGet (g.map (fun q => if q.1 == k then (k, v) else q)) k = some v := by
  intro g
  induction g with
  | nil => simp
  | cons p rest ih =>
    intro h
    by_cases hp : p.1 = k
    · simp [assocGet, hp]
    · have hrest : rest.any (fun q => q.1 == k) = true := by
        simpa [List.any_cons, hp] using h
      simpa [assocGet, hp] using ih hrest

/-- Overwriting one key does not change reads of a different key. -/
theorem assocGet_overwrite_ne {β : Type} (k k' : String) (v : β)
    (hne : k' ≠ k) :
    ∀ g : List (String × β),
      assocGet (g.map (fun q => if q.1 == k then (k, v) else q)) k' =
        assocGet g k' := by
  intro g
  induction g with
  | nil => simp [assocGet]
  | cons p rest ih =>
    by_cases hp : p.1 = k
    · have h1 : ¬ (k = k') := fun hh => hne hh.symm
      have h2 : ¬ (p.1 = k') := by
        rw [hp]; exact h1
      simpa [assocGet, hp, h1, h2] using ih
    · by_cases hp' : p.1 = k'
      · simp [assocGet, hp, hp', hne]
      · simpa [assocGet, hp, hp'] using ih

/-- Appending a fresh key makes it readable when it was absent. -/
theorem assocGet_append_same {β : Type} (k : String) (v : β) :
    ∀ g : List (String × β), g.any (fun q => q.1 == k) = false →
      assocGet (g ++ [(k, v)]) k = some v := by
  intro g
  induction g with
  | nil => simp [assocGet]
  | cons p rest ih =>
    intro h
    have hp : ¬ (p.1 = k) := by
      intro hh
      simp [List.any_cons, hh] at h
    have hrest : rest.any (fun q => q.1 == k) = false := by
      simpa [List.any_cons, hp] using h
    simpa [assocGet, hp] using ih hrest

/-- Appending one key does not change reads of a different key. -/
theorem assocGet_append_ne {β : Type} (k k' : String) (v : β) (hne : k' ≠ k) :
    ∀ g : List (String × β),
      assocGet (g ++ [(k, v)]) k' = assocGet g k' := by
  intro g
  induction g with
  | nil =>
    have h1 : ¬ (k = k') := fun hh => hne hh.symm
    simp [assocGet, h1]
  | cons p rest ih =>
    by_cases hp : p.1 = k'
    · simp [assocGet, hp]
    · simpa [assocGet, hp] using ih

/-- Setting a key makes it readable. -/
theorem assocGet_set_same {β : Type} (g : List (String × β)) (k : String)
    (v : β) : assocGet (assocSet g k v) k = some v := by
  unfold assocSet
  cases hany : g.any (fun p => p.1 == k) with
  | true => simpa using assocGet_overwrite_mem k v g hany
  | false => simpa using assocGet_append_same k v g hany

/-- Setting one key leaves reads of a different key unchanged. -/
theorem assocGet_set_ne {β : Type} (g : List (String × β)) (k k' : String)
    (v : β) (h : k' ≠ k) : assocGet (assocSet g k v) k' = assocGet g k' := by
  unfold assocSet
  cases hany : g.any (fun p => p.1 == k) with
  | true => simpa using assocGet_overwrite_ne k k' v h g
  | false => simpa using assocGet_append_ne k k' v h g

/-- The two cache attribute names differ. -/
theorem plain_ne_mangled : plainCacheKey ≠ mangledCacheKey := by decide

/-- A missing_packages read never touches the caller's namespace. -/
theorem missing_packages_globals {α : Type} (env : Env α) (m : Manager α) :
    ((missing_packages env m).2.1).caller_globals = m.caller_globals := by
  unfold missing_packages
  cases assocGet m.instance_attrs plainCacheKey <;> simp

/-- A missing_packages read never changes the declared packages. -/
theorem missing_packages_pkgs {α : Type} (env : Env α) (m : Manager α) :
    ((missing_packages env m).2.1).packages = m.packages := by
  unfold missing_packages
  cases assocGet m.instance_attrs plainCacheKey <;> simp

/-- A missing_packages read preserves the policy flag. -/
theorem missing_packages_flag {α : Type} (env : Env α) (m : Manager α) :
    ((missing_packages env m).2.1).install_if_missing = m.install_if_missing := by
  unfold missing_packages
  cases assocGet m.instance_attrs plainCacheKey <;> simp

/-- When the unmangled cache attribute is absent (as it always is in manager
flows), a missing_packages read recomputes from the declared packages. -/
theorem missing_packages_eq {α : Type} (env : Env α) (m : Manager α)
    (hplain : assocGet m.instance_attrs plainCacheKey = none) :
    missing_packages env m =
      ((_get_missing_packages env m.packages).1,
       { m with instance_attrs := (assocSet m.instance_attrs mangledCacheKey
           (_get_missing_packages env m.packages).1) },
       (_get_missing_packages env m.packages).2) := by
  unfold missing_packages
  rw [hplain]
  simp [assocGet_set_same]

/-- A missing_packages read leaves the unmangled cache attribute unreadable. -/
theorem missing_packages_plain {α : Type} (env : Env α) (m : Manager α) :
    assocGet ((missing_packages env m).2.1).instance_attrs plainCacheKey =
      assocGet m.instance_attrs plainCacheKey := by
  unfold missing_packages
  cases h : assocGet m.instance_attrs plainCacheKey with
  | some v => simp [h]
  | none => simp [assocGet_set_ne _ _ _ _ plain_ne_mangled, h]

/-- Under a fixed environment, a second missing_packages read returns the same
list as the first. -/
theorem missing_packages_twice {α : Type} (env : Env α) (m : Manager α) :
    (missing_packages env (missing_packages env m).2.1).1 =
      (missing_packages env m).1 := by
  cases h : assocGet m.instance_attrs plainCacheKey with
  | some v =>
    unfold missing_packages
    rw [h]
    simp [h]
  | none =>
    rw [missing_packages_eq env m h]
    have hplain2 : assocGet ({ m with instance_attrs :=
        (assocSet m.instance_attrs mangledCacheKey
          (_get_missing_packages env m.packages).1) } :
          Manager α).instance_attrs plainCacheKey = none := by
      show assocGet (assocSet m.instance_attrs mangledCacheKey
        (_get_missing_packages env m.packages).1) plainCacheKey = none
      rw [assocGet_set_ne m.instance_attrs mangledCacheKey plainCacheKey
        (_get_missing_packages env m.packages).1 plain_ne_mangled]
      exact h
    rw [missing_packages_eq env _ hplain2]

/-- The probe depends only on module and attribute resolution, never on the
installer or metadata parts of the environment. -/
theorem _try_import_congr {α : Type} (e e' : Env α)
    (h1 : e.import_module = e'.import_module) (h2 : e.getattr = e'.getattr) :
    _try_import e = _try_import e' := by
  funext imp
  unfold _try_import
  rw [h1, h2]

/-- Availability of a package is likewise installer-independent. -/
theorem _are_imports_available_congr {α : Type} (e e' : Env α)
    (h1 : e.import_module = e'.import_module) (h2 : e.getattr = e'.getattr) :
    _are_imports_available e = _are_imports_available e' := by
  funext pkg
  unfold _are_imports_available
  rw [_try_import_congr e e' h1 h2]

/-- The missing-set computation is installer-independent. -/
theorem _get_missing_packages_congr {α : Type} (e e' : Env α)
    (h1 : e.import_module = e'.import_module) (h2 : e.getattr = e'.getattr) :
    _get_missing_packages e = _get_missing_packages e' := by
  funext pkgs
  unfold _get_missing_packages
  rw [_are_imports_available_congr e e' h1 h2]

/-- A missing_packages property read is installer-independent. -/
theorem missing_packages_congr {α : Type} (e e' : Env α) (m : Manager α)
    (h1 : e.import_module = e'.import_module) (h2 : e.getattr = e'.getattr) :
    missing_packages e m = missing_packages e' m := by
  unfold missing_packages
  rw [_get_missing_packages_congr e e' h1 h2]

/-- Binding a split import list processes both halves in sequence, starting
the second half from the namespace produced by the first. -/
theorem bindImports_append {α : Type} (env : Env α) (pkg : Package)
    (g : List (String × α)) (xs ys : List Imp) :
    bindImports env pkg g (xs ++ ys) =
      ((bindImports env pkg (bindImports env pkg g xs).1 ys).1,
       (bindImports env pkg g xs).2 ++
         (bindImports env pkg (bindImports env pkg g xs).1 ys).2) := by
  induction xs generalizing g with
  | nil => simp [bindImports]
  | cons i is ih => simp [bindImports, ih, List.append_assoc]

/-- A failing import statement binds nothing and produces exactly one log
line. -/
theorem _import_module_fail {α : Type} (env : Env α) (pkg : Package)
    (imp : Imp) (g : List (String × α))
    (h : bindResolutionFails env imp = true) :
    (_import_module env pkg imp g).1 = g ∧
      (_import_module env pkg imp g).2.length = 1 := by
  cases hk : imp.kind with
  | direct =>
    cases hi : env.import_module (imp.aliasName.getD imp.module) with
    | ok v =>
      exfalso
      simp [bindResolutionFails, hk, hi] at h
    | error e => simp [_import_module, hk, hi]
  | fromImport =>
    cases hi : env.import_module (imp.fromName.getD "") with
    | error e => simp [_import_module, hk, hi]
    | ok v =>
      cases ha : env.getattr v imp.module with
      | ok x =>
        exfalso
        simp [bindResolutionFails, hk, hi, ha] at h
      | error e => simp [_import_module, hk, hi, ha]

/-- The first component of the missing-set computation, spelled out. -/
theorem _get_missing_fst {α : Type} (env : Env α) (pkgs : List Package) :
    (_get_missing_packages env pkgs).1 =
      pkgs.filter (fun p => !_are_imports_available env p && !p.optional) :=
  rfl

/-- The log of the missing-set computation, spelled out. -/
theorem _get_missing_snd {α : Type} (env : Env α) (pkgs : List Package) :
    (_get_missing_packages env pkgs).2 =
      (if (pkgs.filter
            (fun p => !_are_imports_available env p && p.optional)).isEmpty
       then []
       else [LogMsg.optionalMissing
         ((pkgs.filter
            (fun p => !_are_imports_available env p && p.optional)).map
              Package.name)]) :=
  rfl

/-- Every log line of the missing-set computation is the batched
optional-package warning. -/
theorem _get_missing_log_shape {α : Type} (env : Env α) (pkgs : List Package) :
    (_get_missing_packages env pkgs).2 = [] ∨
      ∃ names, (_get_missing_packages env pkgs).2 =
        [LogMsg.optionalMissing names] := by
  rw [_get_missing_snd]
  by_cases h : (pkgs.filter
      (fun p => !_are_imports_available env p && p.optional)).isEmpty = true
  · left
    rw [if_pos h]
  · right
    exact ⟨(pkgs.filter
      (fun p => !_are_imports_available env p && p.optional)).map Package.name,
      by rw [if_neg h]⟩

/-- Members of the missing set are declared, non-optional packages. -/
theorem _get_missing_mem {α : Type} (env : Env α) (pkgs : List Package)
    (p : Package) (hp : p ∈ (_get_missing_packages env pkgs).1) :
    p ∈ pkgs ∧ p.optional = false := by
  unfold _get_missing_packages at hp
  simp only [List.mem_filter, Bool.and_eq_true, Bool.not_eq_true'] at hp
  exact ⟨hp.1, hp.2.2⟩

/-- Every log line of a missing_packages property read is the batched
optional-package warning. -/
theorem missing_packages_log_shape {α : Type} (env : Env α) (m : Manager α)
    (e : LogMsg) (he : e ∈ (missing_packages env m).2.2) :
    ∃ names, e = LogMsg.optionalMissing names := by
  unfold missing_packages at he
  cases h : assocGet m.instance_attrs plainCacheKey with
  | some v =>
    rw [h] at he
    simp at he
  | none =>
    rw [h] at he
    simp only [] at he
    rcases _get_missing_log_shape env m.packages with hnil | ⟨names, hones⟩
    · rw [hnil] at he
      simp at he
    · rw [hones] at he
      simp at he
      exact ⟨names, he⟩

/-- Binding one import statement never logs an installer notice. -/
theorem _import_module_log_not_installing {α : Type} (env : Env α)
    (pkg : Package) (imp : Imp) (g : List (String × α)) (e : LogMsg)
    (he : e ∈ (_import_module env pkg imp g).2) : e.isInstalling = false := by
  cases hk : imp.kind with
  | direct =>
    cases hi : env.import_module (imp.aliasName.getD imp.module) with
    | ok v =>
      simp [_import_module, hk, hi] at he
    | error msg =>
      simp [_import_module, hk, hi] at he
      simp [he, LogMsg.isInstalling]
  | fromImport =>
    cases hi : env.import_module (imp.fromName.getD "") with
    | error msg =>
      simp [_import_module, hk, hi] at he
      simp [he, LogMsg.isInstalling]
    | ok v =>
      cases ha : env.getattr v imp.module with
      | ok x =>
        simp [_import_module, hk, hi, ha] at he
      | error msg =>
        simp [_import_module, hk, hi, ha] at he
        simp [he, LogMsg.isInstalling]

/-- Binding an import list never logs an installer notice. -/
theorem bindImports_log_not_installing {α : Type} (env : Env α)
    (pkg : Package) :
    ∀ (imps : List Imp) (g : List (String × α)) (e : LogMsg),
      e ∈ (bindImports env pkg g imps).2 → e.isInstalling = false := by
  intro imps
  induction imps with
  | nil =>
    intro g e he
    simp [bindImports] at he
  | cons i rest ih =>
    intro g e he
    simp only [bindImports, List.mem_append] at he
    rcases he with he | he
    · exact _import_module_log_not_installing env pkg i g e he
    · exact ih _ e he

/-- Binding every declared package never logs an installer notice. -/
theorem _import_all_log_not_installing {α : Type} (env : Env α) :
    ∀ (ps : List Package) (g : List (String × α)) (e : LogMsg),
      e ∈ (_import_all_modules env g ps).2 → e.isInstalling = false := by
  intro ps
  induction ps with
  | nil =>
    intro g e he
    simp [_import_all_modules] at he
  | cons p rest ih =>
    intro g e he
    simp only [_import_all_modules, List.mem_append] at he
    rcases he with he | he
    · exact bindImports_log_not_installing env p p.imports g e he
    · exact ih _ e he

/-- The only installer notice _install_one logs names its own package. -/
theorem _install_one_installing {α : Type} (env : Env α) (base : List String)
    (p : Package) (e : LogMsg) (he : e ∈ (_install_one env base p).2)
    (hinst : e.isInstalling = true) : e = LogMsg.installingInfo p.name := by
  by_cases hrc : (env.pip_run (installCmd base p)).returncode ≠ 0
  · by_cases hm : strContainsSub (env.pip_run (installCmd base p)).stderr
        "No matching distribution" = true
    · simp [_install_one, hrc, hm] at he
      exact he
    · simp [_install_one, hrc, hm] at he
      rcases he with he | he | he | he
      · exact he
      all_goals simp [he, LogMsg.isInstalling] at hinst
  · by_cases hs : p.version_spec ≠ ""
    · cases hv : env.metadata_version p.name with
      | none =>
        simp [_install_one, hrc, hs, _check_version_compatibility, hv] at he
        exact he
      | some iv =>
        by_cases hsat : _is_version_satisfying iv p.version_spec = true
        · simp [_install_one, hrc, hs, _check_version_compatibility, hv,
            hsat] at he
          exact he
        · simp [_install_one, hrc, hs, _check_version_compatibility, hv,
            hsat] at he
          rcases he with he | he
          · exact he
          · simp [he, LogMsg.isInstalling] at hinst
    · simp [_install_one, hrc, hs] at he
      exact he

/-- Every installer notice in an installer run names a package of the batch. -/
theorem _install_missing_installing {α : Type} (env : Env α)
    (base : List String) :
    ∀ (ps : List Package) (e : LogMsg),
      e ∈ (_install_missing_packages env base ps).2 → e.isInstalling = true →
        ∃ p, p ∈ ps ∧ e = LogMsg.installingInfo p.name := by
  intro ps
  induction ps with
  | nil =>
    intro e he _
    simp [_install_missing_packages] at he
  | cons p rest ih =>
    intro e he hinst
    cases hr : (_install_one env base p).1 with
    | error err =>
      simp only [_install_missing_packages, hr] at he
      exact ⟨p, List.mem_cons_self _ _,
        _install_one_installing env base p e he hinst⟩
    | ok u =>
      simp only [_install_missing_packages, hr, List.mem_append] at he
      rcases he with he | he
      · exact ⟨p, List.mem_cons_self _ _,
          _install_one_installing env base p e he hinst⟩
      · rcases ih e he hinst with ⟨q, hq, hqe⟩
        exact ⟨q, List.mem_cons_of_mem _ hq, hqe⟩

/-- When every unavailable declared package is optional, the missing set is
empty. -/
theorem _get_missing_nil {α : Type} (env : Env α) (pkgs : List Package)
    (h : ∀ p, p ∈ pkgs → _are_imports_available env p = false →
      p.optional = true) :
    (_get_missing_packages env pkgs).1 = [] := by
  unfold _get_missing_packages
  simp only [List.filter_eq_nil_iff]
  intro p hp
  simp only [Bool.and_eq_true, Bool.not_eq_true', not_and]
  intro hav
  simp [h p hp hav]

/-- Any log line of a full install run comes from one of the two property
reads, from the installer loop over the second read's missing list, or from
the binding phase. -/
theorem installRun_log_cases {α : Type} (env : Env α) (m : Manager α)
    (e : LogMsg) (he : e ∈ (installRun env m).2.2) :
    e ∈ (missing_packages env m).2.2 ∨
    e ∈ (missing_packages env (missing_packages env m).2.1).2.2 ∨
    e ∈ (_install_missing_packages env
          (cmdBase env (missing_packages env (missing_packages env m).2.1).2.1)
          (missing_packages env (missing_packages env m).2.1).1).2 ∨
    (∃ (g2 : List (String × α)) (ps : List Package),
      e ∈ (_import_all_modules env g2 ps).2) := by
  simp only [installRun] at he
  split at he
  · rcases List.mem_append.mp he with h | h
    · exact Or.inl h
    · exact Or.inr (Or.inr (Or.inr ⟨_, _, h⟩))
  · split at he
    · rcases List.mem_append.mp he with h | h
      · rcases List.mem_append.mp h with h2 | h2
        · exact Or.inl h2
        · exact Or.inr (Or.inl h2)
      · exact Or.inr (Or.inr (Or.inl h))
    · rcases List.mem_append.mp he with h | h
      · rcases List.mem_append.mp h with h2 | h2
        · rcases List.mem_append.mp h2 with h3 | h3
          · exact Or.inl h3
          · exact Or.inr (Or.inl h3)
        · exact Or.inr (Or.inr (Or.inl h2))
      · exact Or.inr (Or.inr (Or.inr ⟨_, _, h⟩))

/-- A member of a missing_packages read is a declared non-optional package,
when the unmangled cache attribute is absent. -/
theorem missing_packages_mem {α : Type} (env : Env α) (mm : Manager α)
    (hplain : assocGet mm.instance_attrs plainCacheKey = none)
    (p : Package) (hp : p ∈ (missing_packages env mm).1) :
    p ∈ mm.packages ∧ p.optional = false := by
  rw [missing_packages_eq env mm hplain] at hp
  exact _get_missing_mem env mm.packages p hp

/- ===== Claim theorems ===== -/

/-- C3 counterexample: a requirement declared with an absent constraint is
normalized to the greater-than-zero specifier, and the version string 0 does
not satisfy it, so an empty constraint does not accept every version. -/
theorem C3_counterexample :
    mkPackage "p" none false =
      some { name := "p", version_spec := ">0", optional := false,
             imports := [] } ∧
    _is_version_satisfying "0" ">0" = false := by
  exact ⟨rfl, rfl⟩

/-- C3 (amended): a requirement declared with an empty or absent constraint
carries the normalized specifier of one greater-than-zero clause, and the
version-satisfaction test accepts every version string whose release parses
and is strictly greater than zero (version zero itself, and unparsable
version strings, are rejected). -/
theorem C3_empty_constraint (name : String) (opt : Bool)
    (vspec : Option String) (hempty : vspec = none ∨ vspec = some "")
    (v : String) (r : List Nat) (hv : parseVersion v = some r)
    (hpos : cmpVer r [0] = Ordering.gt) :
    mkPackage name vspec opt =
      some { name := name, version_spec := ">0", optional := opt,
             imports := [] } ∧
    _is_version_satisfying v ">0" = true := by
  constructor
  · rcases hempty with h | h <;> subst h <;> rfl
  · unfold _is_version_satisfying
    rw [if_neg (by decide : ¬(">0" : String) = "")]
    rw [hv]
    have hset : parseSpecifierSet ">0" =
        some [{ op := SpecOp.gt, verText := "0", release := [0] }] := rfl
    rw [hset]
    simp [specContains, hpos]
    rfl

/-- C3 witness: the amended statement instantiated at version 1.0. -/
theorem C3_witness :
    ((none : Option String) = none ∨ (none : Option String) = some "") ∧
    parseVersion "1.0" = some [1, 0] ∧
    cmpVer [1, 0] [0] = Ordering.gt ∧
    (mkPackage "p" none false =
      some { name := "p", version_spec := ">0", optional := false,
             imports := [] } ∧
    _is_version_satisfying "1.0" ">0" = true) :=
  ⟨Or.inl rfl, rfl, rfl,
   C3_empty_constraint "p" false none (Or.inl rfl) "1.0" [1, 0] rfl rfl⟩

/-- C10: the availability probe mutates no caller-visible state; a
missing_packages read (which runs the probe over every declared requirement)
leaves the caller's namespace and the declared requirement list unchanged,
whatever the probe outcome. -/
theorem C10_probe_frame {α : Type} (env : Env α) (m : Manager α) :
    ((missing_packages env m).2.1).caller_globals = m.caller_globals ∧
    ((missing_packages env m).2.1).packages = m.packages :=
  ⟨missing_packages_globals env m, missing_packages_pkgs env m⟩

/-- C1 code evaluation: for a Direct import of module pymongo under alias pm,
the binder resolves the module named by the alias, not the target. When both
names resolve, the value registered under pm is the pm module, not the
resolved pymongo module; when only pymongo resolves, the bind fails with
an error (whose log line names pymongo although the failed import was of
pm) and the symbol stays unbound. -/
theorem C1_code_eval :
    _import_module wEnvBoth pkgOk impAliased ([] : List (String × String)) =
      ([("pm", "V_pm")], []) ∧
    _import_module wEnv { pkgOk with name := "pymongo" } impAliased
      ([] : List (String × String)) =
      ([], [LogMsg.errorImportDirect "pymongo" "No module named pm"
        "pymongo"]) := by
  exact ⟨rfl, rfl⟩

/-- C2 code evaluation: a first missing_packages read computes the missing
set and stores it under the mangled attribute name, yet a second read ignores
the stored cache and re-runs the probe — under an environment where the
module has meanwhile become importable, the second read returns a different
answer than the memoized first one would. -/
theorem C2_code_eval :
    (missing_packages wEnv
      (mkManager [pkgMissReq] false ([] : List (String × String)))).1 =
      [pkgMissReq] ∧
    ((missing_packages wEnv
      (mkManager [pkgMissReq] false
        ([] : List (String × String)))).2.1).instance_attrs =
      [(mangledCacheKey, [pkgMissReq])] ∧
    (missing_packages wEnvLater
      (missing_packages wEnv
        (mkManager [pkgMissReq] false
          ([] : List (String × String)))).2.1).1 = [] := by
  exact ⟨rfl, rfl, rfl⟩

/-- C9: a bind-time resolution failure of one ImportSpec is non-fatal — it
binds nothing, produces exactly one log line, and the surrounding import list
is processed exactly as if only that one binding were skipped, so sibling
bindings still succeed. -/
theorem C9_bind_failure_isolated {α : Type} (env : Env α) (pkg : Package)
    (g : List (String × α)) (xs ys : List Imp) (imp : Imp)
    (h : bindResolutionFails env imp = true) :
    (_import_module env pkg imp (bindImports env pkg g xs).1).1 =
      (bindImports env pkg g xs).1 ∧
    (_import_module env pkg imp (bindImports env pkg g xs).1).2.length = 1 ∧
    bindImports env pkg g (xs ++ imp :: ys) =
      ((bindImports env pkg (bindImports env pkg g xs).1 ys).1,
       (bindImports env pkg g xs).2 ++
         (_import_module env pkg imp (bindImports env pkg g xs).1).2 ++
         (bindImports env pkg (bindImports env pkg g xs).1 ys).2) := by
  obtain ⟨h1, h2⟩ :=
    _import_module_fail env pkg imp (bindImports env pkg g xs).1 h
  refine ⟨h1, h2, ?_⟩
  rw [bindImports_append]
  simp only [bindImports]
  rw [h1]
  simp [List.append_assoc]

/-- C9 witness: with one failing from-import between two resolvable imports,
both siblings bind and the failure contributes exactly one log line. -/
theorem C9_witness :
    bindResolutionFails wEnv impBadAttr = true ∧
    bindImports wEnv pkgOk ([] : List (String × String))
      ([impOk] ++ impBadAttr :: [impObjId]) =
      ([("okmod", "V_okmod"), ("ObjectId", "V_ObjectId")],
       [LogMsg.errorAttr "NoSuchAttr" "pymongo"
         "module V_pymongo has no attribute NoSuchAttr"]) := by
  refine ⟨rfl, ?_⟩
  rw [(C9_bind_failure_isolated wEnv pkgOk ([] : List (String × String))
    [impOk] [impObjId] impBadAttr rfl).2.2]
  rfl

/-- C5: classification of one installer invocation — a non-zero exit whose
stderr carries the no-matching-distribution diagnostic raises the
package-not-found error; any other non-zero exit raises the installation
error while the log carries the failing command line, stderr and stdout; a
zero exit raises neither and defers to the version check. -/
theorem C5_install_classification {α : Type} (env : Env α)
    (base : List String) (pkg : Package) :
    ((env.pip_run (installCmd base pkg)).returncode ≠ 0 →
      strContainsSub (env.pip_run (installCmd base pkg)).stderr
        "No matching distribution" = true →
      _install_one env base pkg =
        (Except.error (RdmError.dependentPackageNotFound pkg.name),
         [LogMsg.installingInfo pkg.name])) ∧
    ((env.pip_run (installCmd base pkg)).returncode ≠ 0 →
      strContainsSub (env.pip_run (installCmd base pkg)).stderr
        "No matching distribution" = false →
      _install_one env base pkg =
        (Except.error (RdmError.packageInstallation
          ("Error installing package " ++ pkg.name)),
         [LogMsg.installingInfo pkg.name,
          LogMsg.installErrorStderr pkg.name
            (env.pip_run (installCmd base pkg)).stderr,
          LogMsg.failedCommand (renderCmd (installCmd base pkg)),
          LogMsg.commandOutput
            (env.pip_run (installCmd base pkg)).stdout])) ∧
    ((env.pip_run (installCmd base pkg)).returncode = 0 →
      (_install_one env base pkg).1 =
        (if pkg.version_spec ≠ "" then (_check_version_compatibility env pkg).1
         else Except.ok ())) := by
  refine ⟨?_, ?_, ?_⟩
  · intro hrc hm
    simp [_install_one, hrc, hm]
  · intro hrc hm
    simp [_install_one, hrc, hm]
  · intro hrc
    have hrc2 : ¬ ((env.pip_run (installCmd base pkg)).returncode ≠ 0) := by
      simp [hrc]
    by_cases hs : pkg.version_spec ≠ ""
    · simp [_install_one, hrc2, hs]
    · simp [_install_one, hrc2, hs]

/-- C6: for a declared requirement with a non-empty constraint that is
missing and that pip reports as successfully installed, an unreadable
installed version raises the package-not-found error, and a readable version
that fails the constraint raises the version-compatibility error carrying the
package name, installed version and constraint; in both cases the session
aborts before any binding, leaving the caller's namespace untouched. -/
theorem C6_postinstall_check {α : Type} (env : Env α) (pkg : Package)
    (g : List (String × α))
    (hspec : pkg.version_spec ≠ "")
    (hmiss : _are_imports_available env pkg = false)
    (hopt : pkg.optional = false)
    (hpip : ∀ cmd, (env.pip_run cmd).returncode = 0) :
    (env.metadata_version pkg.name = none →
      (exitRun env (mkManager [pkg] true g)).2.1 =
        ExitStatus.raised (RdmError.dependentPackageNotFound pkg.name) ∧
      (exitRun env (mkManager [pkg] true g)).1.caller_globals = g) ∧
    (∀ iv, env.metadata_version pkg.name = some iv →
      _is_version_satisfying iv pkg.version_spec = false →
      (exitRun env (mkManager [pkg] true g)).2.1 =
        ExitStatus.raised
          (RdmError.versionCompatibility pkg.name iv pkg.version_spec) ∧
      (exitRun env (mkManager [pkg] true g)).1.caller_globals = g) := by
  have hkey : (mangledCacheKey == plainCacheKey) = false := by rfl
  constructor
  · intro hv
    constructor <;>
      simp [exitRun, installRun, missing_packages, _get_missing_packages,
        mkManager, assocGet, assocSet, _install_missing_packages,
        _install_one, _check_version_compatibility, hmiss, hopt, hspec,
        hpip, hv, hkey]
  · intro iv hv hsat
    constructor <;>
      simp [exitRun, installRun, missing_packages, _get_missing_packages,
        mkManager, assocGet, assocSet, _install_missing_packages,
        _install_one, _check_version_compatibility, hmiss, hopt, hspec,
        hpip, hv, hsat, hkey]

/-- C6 witness: both error paths at concrete environments — metadata absent
for misspkg under wEnv, and version 1.0.0 failing the constraint under
wEnvVer — with the caller namespace left empty. -/
theorem C6_witness :
    ((exitRun wEnv
       (mkManager [pkgMissReq] true ([] : List (String × String)))).2.1 =
      ExitStatus.raised (RdmError.dependentPackageNotFound "misspkg") ∧
     (exitRun wEnv
       (mkManager [pkgMissReq] true
         ([] : List (String × String)))).1.caller_globals = []) ∧
    ((exitRun wEnvVer
       (mkManager [pkgMissReq2] true ([] : List (String × String)))).2.1 =
      ExitStatus.raised
        (RdmError.versionCompatibility "misspkg" "1.0.0" ">=2.0") ∧
     (exitRun wEnvVer
       (mkManager [pkgMissReq2] true
         ([] : List (String × String)))).1.caller_globals = []) := by
  constructor
  · exact (C6_postinstall_check wEnv pkgMissReq
      ([] : List (String × String)) (by decide) rfl rfl
      (fun _ => rfl)).1 rfl
  · exact (C6_postinstall_check wEnvVer pkgMissReq2
      ([] : List (String × String)) (by decide) rfl rfl
      (fun _ => rfl)).2 "1.0.0" rfl rfl

/-- C7: when install_if_missing is false and the missing set is non-empty at
session close, the process exits with status 1, the caller's namespace is
untouched, the fail-fast warning lines are exactly one per missing
requirement in the exact documented form, and the whole outcome is
independent of the installer and metadata parts of the environment (the
installer is never invoked). -/
theorem C7_failfast {α : Type} (e e' : Env α) (m : Manager α)
    (hflag : m.install_if_missing = false)
    (hne : ((missing_packages e m).1).isEmpty = false)
    (h1 : e.import_module = e'.import_module)
    (h2 : e.getattr = e'.getattr) :
    (exitRun e m).2.1 = ExitStatus.exited 1 ∧
    (exitRun e m).1.caller_globals = m.caller_globals ∧
    ((exitRun e m).2.2).filter LogMsg.isMissingReq =
      (missing_packages e m).1.map
        (fun p => LogMsg.missingRequired p.name p.version_spec) ∧
    (∀ p, p ∈ (missing_packages e m).1 →
      LogMsg.render (LogMsg.missingRequired p.name p.version_spec) =
        "Missing required runtime module: " ++ p.name ++ p.version_spec) ∧
    exitRun e m = exitRun e' m := by
  have hexit : exitRun e m =
      ((missing_packages e (missing_packages e m).2.1).2.1,
       ExitStatus.exited 1,
       (missing_packages e m).2.2 ++
         (missing_packages e (missing_packages e m).2.1).2.2 ++
         (missing_packages e (missing_packages e m).2.1).1.map
           (fun p => LogMsg.missingRequired p.name p.version_spec)) := by
    simp only [exitRun, hflag, Bool.false_eq_true, if_false, hne]
  have hfilterMiss : ∀ mm : Manager α,
      ((missing_packages e mm).2.2).filter LogMsg.isMissingReq = [] := by
    intro mm
    apply List.filter_eq_nil_iff.mpr
    intro a ha
    rcases missing_packages_log_shape e mm a ha with ⟨ns, hns⟩
    simp [hns, LogMsg.isMissingReq]
  refine ⟨by rw [hexit], ?_, ?_, fun p _ => rfl, ?_⟩
  · rw [hexit]
    show ((missing_packages e (missing_packages e m).2.1).2.1).caller_globals =
      m.caller_globals
    rw [missing_packages_globals, missing_packages_globals]
  · rw [hexit]
    show ((missing_packages e m).2.2 ++
        (missing_packages e (missing_packages e m).2.1).2.2 ++
        (missing_packages e (missing_packages e m).2.1).1.map
          (fun p => LogMsg.missingRequired p.name p.version_spec)).filter
        LogMsg.isMissingReq = _
    rw [List.filter_append, List.filter_append, hfilterMiss, hfilterMiss,
      missing_packages_twice]
    have hself : ((missing_packages e m).1.map
        (fun p => LogMsg.missingRequired p.name p.version_spec)).filter
          LogMsg.isMissingReq =
        (missing_packages e m).1.map
          (fun p => LogMsg.missingRequired p.name p.version_spec) := by
      apply List.filter_eq_self.mpr
      intro a ha
      rcases List.mem_map.mp ha with ⟨p, _, hpa⟩
      rw [← hpa]
      rfl
    rw [hself]
    simp
  · simp only [exitRun, hflag, Bool.false_eq_true, if_false]
    rw [missing_packages_congr e e' m h1 h2,
      missing_packages_congr e e' _ h1 h2]

/-- C7 witness: with a concrete missing required package and an environment
variant whose pip and metadata differ, the fail-fast path exits 1, binds
nothing, and its outcome ignores the installer entirely. -/
theorem C7_witness :
    (exitRun wEnv
      (mkManager [pkgMissReq] false ([] : List (String × String)))).2.1 =
      ExitStatus.exited 1 ∧
    (exitRun wEnv
      (mkManager [pkgMissReq] false
        ([] : List (String × String)))).1.caller_globals = [] ∧
    exitRun wEnv
      (mkManager [pkgMissReq] false ([] : List (String × String))) =
      exitRun wEnvPipFail
        (mkManager [pkgMissReq] false ([] : List (String × String))) := by
  have h := C7_failfast wEnv wEnvPipFail
    (mkManager [pkgMissReq] false ([] : List (String × String)))
    rfl rfl rfl rfl
  exact ⟨h.1, h.2.1, h.2.2.2.2⟩

/-- C8: unavailable optional requirements are excluded from the missing set;
they are reported only through the single batched optional warning; every
installer invocation of a session names a declared non-optional requirement
(optional packages are never handed to the installer); and when every
unavailable requirement is optional, closing a non-installing session never
fail-fasts. -/
theorem C8_optional_policy {α : Type} (env : Env α) (pkgs : List Package)
    (m : Manager α) :
    (∀ p, p ∈ (_get_missing_packages env pkgs).1 → p.optional = false) ∧
    ((_get_missing_packages env pkgs).2 = [] ∨
      ∃ names, (_get_missing_packages env pkgs).2 =
        [LogMsg.optionalMissing names]) ∧
    (m.instance_attrs = [] →
      ∀ n, LogMsg.installingInfo n ∈ (installRun env m).2.2 →
        ∃ p, p ∈ m.packages ∧ p.optional = false ∧ p.name = n) ∧
    (m.instance_attrs = [] → m.install_if_missing = false →
      (∀ p, p ∈ m.packages → _are_imports_available env p = false →
        p.optional = true) →
      (exitRun env m).2.1 = ExitStatus.normal) := by
  refine ⟨?_, _get_missing_log_shape env pkgs, ?_, ?_⟩
  · intro p hp
    exact (_get_missing_mem env pkgs p hp).2
  · intro hattrs n hn
    have hplain1 : assocGet m.instance_attrs plainCacheKey = none := by
      rw [hattrs]
      rfl
    have hplain2 : assocGet
        ((missing_packages env m).2.1).instance_attrs plainCacheKey = none := by
      rw [missing_packages_plain]
      exact hplain1
    rcases installRun_log_cases env m _ hn with h | h | h | ⟨g2, ps2, h⟩
    · rcases missing_packages_log_shape env m _ h with ⟨ns, hns⟩
      exact absurd hns (by simp)
    · rcases missing_packages_log_shape env _ _ h with ⟨ns, hns⟩
      exact absurd hns (by simp)
    · rcases _install_missing_installing env _ _ _ h rfl with ⟨p, hp, hpe⟩
      have hm := missing_packages_mem env _ hplain2 p hp
      refine ⟨p, ?_, hm.2, ?_⟩
      · rw [← missing_packages_pkgs env m]
        exact hm.1
      · injection hpe with hh
        exact hh.symm
    · have hni := _import_all_log_not_installing env ps2 g2 _ h
      simp [LogMsg.isInstalling] at hni
  · intro hattrs hflag hopt
    have hplain1 : assocGet m.instance_attrs plainCacheKey = none := by
      rw [hattrs]
      rfl
    have hz : (missing_packages env m).1 = [] := by
      rw [missing_packages_eq env m hplain1]
      exact _get_missing_nil env m.packages hopt
    simp only [exitRun, hflag, Bool.false_eq_true, if_false, hz]
    simp

/-- C8 witness: the policy instantiated — a missing required package is in
the missing set and non-optional; a session over the two concrete packages
warns once about the optional one; an install run logs an installer notice
only for the required package; and a session holding only the unavailable
optional package closes normally without fail-fast. -/
theorem C8_witness :
    pkgMissReq.optional = false ∧
    ((_get_missing_packages wEnv [pkgMissOpt, pkgMissReq]).2 = [] ∨
      ∃ names, (_get_missing_packages wEnv [pkgMissOpt, pkgMissReq]).2 =
        [LogMsg.optionalMissing names]) ∧
    (∃ p, p ∈ [pkgMissReq] ∧ p.optional = false ∧ p.name = "misspkg") ∧
    (exitRun wEnv
      (mkManager [pkgMissOpt] false ([] : List (String × String)))).2.1 =
      ExitStatus.normal := by
  refine ⟨?_, ?_, ?_, ?_⟩
  · exact (C8_optional_policy wEnv [pkgMissOpt, pkgMissReq]
      (mkManager [pkgMissOpt] false ([] : List (String × String)))).1
      pkgMissReq (by decide)
  · exact (C8_optional_policy wEnv [pkgMissOpt, pkgMissReq]
      (mkManager [pkgMissOpt] false ([] : List (String × String)))).2.1
  · exact (C8_optional_policy wEnv [pkgMissOpt, pkgMissReq]
      (mkManager [pkgMissReq] true ([] : List (String × String)))).2.2.1
      rfl "misspkg" (by decide)
  · exact (C8_optional_policy wEnv [pkgMissOpt, pkgMissReq]
      (mkManager [pkgMissOpt] false ([] : List (String × String)))).2.2.2
      rfl rfl (by decide)

/-- C4 counterexample: with install_if_missing false and the single declared
requirement already available, the session closes normally — no fail-fast and
no installation error — yet no binding is performed: the declared import
okmod is never placed into the caller's namespace. -/
theorem C4_counterexample :
    (exitRun wEnv
      (mkManager [pkgOk] false ([] : List (String × String)))).2.1 =
      ExitStatus.normal ∧
    (exitRun wEnv
      (mkManager [pkgOk] false
        ([] : List (String × String)))).1.caller_globals = [] := by
  exact ⟨rfl, rfl⟩

/-- C4 (amended): binding happens only on the auto-install path — when
install_if_missing is true and installation raises no error, session close
runs the Binding phase over the ImportSpecs of ALL declared requirements in
declaration order, including requirements that were already available;
when install_if_missing is false, session close never binds anything. -/
theorem C4_binding_when_installing {α : Type} (env : Env α) (m : Manager α)
    (hflag : m.install_if_missing = true)
    (hok : (installRun env m).2.1 = none) :
    (exitRun env m).2.1 = ExitStatus.normal ∧
    (exitRun env m).1.caller_globals =
      (_import_all_modules env m.caller_globals m.packages).1 ∧
    (∀ m2 : Manager α, m2.install_if_missing = false →
      (exitRun env m2).1.caller_globals = m2.caller_globals) := by
  have hglob : (installRun env m).1.caller_globals =
      (_import_all_modules env m.caller_globals m.packages).1 := by
    by_cases hz : ((missing_packages env m).1).isEmpty = true
    · simp [installRun, hz, missing_packages_globals, missing_packages_pkgs]
    · cases hi : (_install_missing_packages env
          (cmdBase env (missing_packages env (missing_packages env m).2.1).2.1)
          (missing_packages env (missing_packages env m).2.1).1).1 with
      | error err =>
        exfalso
        simp [installRun, hz, hi] at hok
      | ok u =>
        simp [installRun, hz, hi, missing_packages_globals,
          missing_packages_pkgs]
  constructor
  · simp only [exitRun, hflag, if_true]
    rw [hok]
  constructor
  · simp only [exitRun, hflag, if_true]
    rw [hok]
    exact hglob
  · intro m2 hflag2
    by_cases hz : ((missing_packages env m2).1).isEmpty = true
    · simp [exitRun, hflag2, hz, missing_packages_globals]
    · simp [exitRun, hflag2, hz, missing_packages_globals]

/-- C4 witness: the amended statement at a concrete installing session whose
single requirement is already available — it still gets bound. -/
theorem C4_witness :
    (exitRun wEnv
      (mkManager [pkgOk] true ([] : List (String × String)))).2.1 =
      ExitStatus.normal ∧
    (exitRun wEnv
      (mkManager [pkgOk] true
        ([] : List (String × String)))).1.caller_globals =
      (_import_all_modules wEnv ([] : List (String × String)) [pkgOk]).1 ∧
    (_import_all_modules wEnv ([] : List (String × String)) [pkgOk]).1 =
      [("okmod", "V_okmod")] := by
  have h := C4_binding_when_installing wEnv
    (mkManager [pkgOk] true ([] : List (String × String))) rfl rfl
  exact ⟨h.1, h.2.1, rfl⟩

/-- C5 witness: the three classifications at concrete pip outcomes. -/
theorem C5_witness :
    _install_one wEnvPipNoMatch
      (cmdBase wEnvPipNoMatch
        (mkManager ([] : List Package) true ([] : List (String × String))))
      pkgMissReq =
      (Except.error (RdmError.dependentPackageNotFound "misspkg"),
       [LogMsg.installingInfo "misspkg"]) ∧
    _install_one wEnvPipFail
      (cmdBase wEnvPipFail
        (mkManager ([] : List Package) true ([] : List (String × String))))
      pkgMissReq =
      (Except.error (RdmError.packageInstallation
        "Error installing package misspkg"),
       [LogMsg.installingInfo "misspkg",
        LogMsg.installErrorStderr "misspkg" "boom",
        LogMsg.failedCommand
          ("python3 -m pip install " ++ sq ++ "misspkg>=1.0" ++ sq),
        LogMsg.commandOutput "outX"]) ∧
    (_install_one wEnv
      (cmdBase wEnv
        (mkManager ([] : List Package) true ([] : List (String × String))))
      pkgMissReq).1 =
      (_check_version_compatibility wEnv pkgMissReq).1 := by
  refine ⟨?_, ?_, ?_⟩
  · exact (C5_install_classification wEnvPipNoMatch _ pkgMissReq).1
      (by decide) rfl
  · have h := (C5_install_classification wEnvPipFail
      (cmdBase wEnvPipFail
        (mkManager ([] : List Package) true ([] : List (String × String))))
      pkgMissReq).2.1 (by decide) rfl
    rw [h]
    rfl
  · have h := (C5_install_classification wEnv
      (cmdBase wEnv
        (mkManager ([] : List Package) true ([] : List (String × String))))
      pkgMissReq).2.2 rfl
    rw [h]
    rfl

end RDM
